import Mathlib

/-!
Verification of the embedding/indexing core of the obsidian-gpt-zettelkasten
plugin. Definitions are shallow embeddings of `src/main.ts` and
`src/src/llm_client.ts`; parts of the repository that are imported by
`main.ts` but whose sources are not available (`src/semantic_search.ts`,
`src/vector_storage.ts`) are modelled from the specification and say so in
their doc comments. Remote calls (the OpenAI embeddings endpoint) are
modelled as an explicit function argument `embedApi`, and the number of
remote requests a call issues is returned alongside its result.
-/

namespace ZKLLM

/-! ## Constants from src/src/llm_client.ts -/

def OPENAI_PROVIDER : String := "openai"

def OPENAI_EMBEDDING_3_SMALL : String := "text-embedding-3-small"

def OPENAI_EMBEDDING_3_LARGE : String := "text-embedding-3-large"

def unlabelledEmbeddingModel : String := OPENAI_EMBEDDING_3_SMALL

def quantizationDecimals : Nat := 3

/-- `OpenAIClientConfig` from src/src/llm_client.ts. -/
structure OpenAIClientConfig where
  embeddings_model : String
  quantization_decimals : Nat
  baseURL : Option String
deriving Repr, DecidableEq

/-- A `Partial<OpenAIClientConfig>` as passed to the `OpenAIClient`
constructor: every field may be absent. -/
structure PartialOpenAIClientConfig where
  embeddings_model : Option String
  quantization_decimals : Option Nat
  baseURL : Option String
deriving Repr, DecidableEq

/-- `defaultOpenAIConfig` from src/src/llm_client.ts. -/
def defaultOpenAIConfig : OpenAIClientConfig :=
  { embeddings_model := OPENAI_EMBEDDING_3_SMALL
    quantization_decimals := quantizationDecimals
    baseURL := none }

/-- The spread merge `{ ...defaultOpenAIConfig, ...config }` performed by the
`OpenAIClient` constructor: a field given in the partial config overrides the
default. -/
def mergeConfig (p : PartialOpenAIClientConfig) : OpenAIClientConfig :=
  { embeddings_model := p.embeddings_model.getD defaultOpenAIConfig.embeddings_model
    quantization_decimals :=
      p.quantization_decimals.getD defaultOpenAIConfig.quantization_decimals
    baseURL := match p.baseURL with
      | some b => some b
      | none => defaultOpenAIConfig.baseURL }

/-- The componentwise write-time rounding `Number(value.toFixed(d))` of
`generateOpenAiEmbeddings`, modelled on the rationals: round to the nearest
multiple of `10 ^ (-d)`. -/
def quantizeComponent (d : Nat) (x : ℚ) : ℚ :=
  (round (x * (10 : ℚ) ^ d) : ℚ) / (10 : ℚ) ^ d

/-- The `dimensions` local of `generateOpenAiEmbeddings`: set to 256 for the
small model, left undefined otherwise. -/
def embeddingDimensions (model : String) : Option Nat :=
  if model = OPENAI_EMBEDDING_3_SMALL then some 256 else none

/-- The `OpenAIClient` class of src/src/llm_client.ts, restricted to the state
the embedding path uses.  The remote endpoint `this.openai.embeddings.create`
is modelled as the function `embedApi`, taking the model name, the optional
`dimensions` parameter and the document batch, and returning the raw (not yet
quantized) embedding vectors of the response `data` array. -/
structure OpenAIClient where
  config : OpenAIClientConfig
  embedApi : String → Option Nat → List String → List (List ℚ)

/-- The `OpenAIClient` constructor: merges the partial config over the
defaults (the `apiKey` / SDK plumbing is irrelevant to the claims and the
remote behaviour is the `embedApi` argument). -/
def OpenAIClient.create (api : String → Option Nat → List String → List (List ℚ))
    (p : PartialOpenAIClientConfig) : OpenAIClient :=
  { config := mergeConfig p, embedApi := api }

/-- `OpenAIClient.generateOpenAiEmbeddings` from src/src/llm_client.ts: calls
the endpoint once with the configured model, maps every component of every
returned embedding through the quantization rule, and returns element `[0]`
(`none` models the `undefined` a JS empty-response indexing produces). -/
def OpenAIClient.generateOpenAiEmbeddings (c : OpenAIClient) (docs : List String) :
    Option (List ℚ) :=
  let model := c.config.embeddings_model
  let dimensions := embeddingDimensions model
  let embeddings := c.embedApi model dimensions docs
  (embeddings.map (fun entry =>
    entry.map (fun value => quantizeComponent c.config.quantization_decimals value))).head?

/-- `generateEmbeddings` from src/src/llm_client.ts.  The result pairs the
`Except` outcome (the thrown error message, or the returned vector) with the
number of remote embedding requests the call issued, so that the theorems can
speak about "no remote call was made". -/
def generateEmbeddings (text : String) (modelName : String)
    (openaiClient : Option OpenAIClient) : Except String (Option (List ℚ)) × Nat :=
  if text = "" then
    (Except.error "No text provided for embedding generation", 0)
  else if modelName = OPENAI_EMBEDDING_3_SMALL ∨ modelName = OPENAI_EMBEDDING_3_LARGE then
    match openaiClient with
    | none => (Except.error "OpenAI client not initialized", 0)
    | some c => (Except.ok (c.generateOpenAiEmbeddings [text]), 1)
  else
    (Except.error ("Unknown embedding model: " ++ modelName), 0)

/-- `CustomEmbeddingModel` from src/src/llm_client.ts. -/
structure CustomEmbeddingModel where
  name : String
  displayName : String
deriving Repr, DecidableEq

/-- `EmbeddingModel` from src/src/llm_client.ts. -/
structure EmbeddingModel where
  provider : String
  name : String
  displayName : String
  available : Bool
  providerId : Option String
deriving Repr, DecidableEq

/-- `availableEmbeddingModels` from src/src/llm_client.ts.  The record
`providerModels` is modelled as an association list; `Object.values` becomes
taking the second components in order. -/
def availableEmbeddingModels (openAIKey : String)
    (customModels : List CustomEmbeddingModel)
    (providerModels : List (String × List EmbeddingModel)) : List EmbeddingModel :=
  let builtInModels : List EmbeddingModel :=
    [ { provider := OPENAI_PROVIDER
        name := OPENAI_EMBEDDING_3_SMALL
        displayName := "OpenAI: text-embedding-3-small"
        available := !openAIKey.isEmpty
        providerId := some "openai" }
    , { provider := OPENAI_PROVIDER
        name := OPENAI_EMBEDDING_3_LARGE
        displayName := "OpenAI: text-embedding-3-large"
        available := !openAIKey.isEmpty
        providerId := some "openai" } ]
  let customEmbeddingModels : List EmbeddingModel :=
    (customModels.filter (fun model => !model.name.isEmpty)).map (fun model =>
      { provider := OPENAI_PROVIDER
        name := model.name
        displayName := if model.displayName = "" then model.name else model.displayName
        available := true
        providerId := some "openai" })
  let discoveredModels : List EmbeddingModel :=
    (providerModels.map (fun entry => entry.2)).flatten
  builtInModels ++ customEmbeddingModels ++ discoveredModels

/-! ## Model value helpers from src/main.ts -/

/-- `formatModelValue` from src/main.ts: the template literal
`providerId:modelName`. -/
def formatModelValue (providerId : String) (modelName : String) : String :=
  providerId ++ ":" ++ modelName

/-- The result record of `parseModelValue`. -/
structure ParsedModelValue where
  providerId : String
  modelName : String
deriving Repr, DecidableEq

/-- `value.indexOf(":")` followed by the two `substring` calls of
`parseModelValue`, as one list operation: split the character list at the
first colon, `none` when there is no colon. -/
def splitAtFirstColon : List Char → Option (List Char × List Char)
  | [] => none
  | c :: cs =>
    if c = ':' then some ([], cs)
    else match splitAtFirstColon cs with
      | none => none
      | some (pre, post) => some (c :: pre, post)

/-- `parseModelValue` from src/main.ts: when the value has no colon it is an
old-format bare model name, defaulting to the openai provider; otherwise the
part before the first colon is the provider id and the rest the model name. -/
def parseModelValue (value : String) : ParsedModelValue :=
  match splitAtFirstColon value.data with
  | none => { providerId := "openai", modelName := value }
  | some (pre, post) => { providerId := ⟨pre⟩, modelName := ⟨post⟩ }

/-- `oldValue.includes(":")` as used by `migrateModelValue` and the settings
tab of src/main.ts. -/
def containsColon (s : String) : Bool :=
  s.data.contains ':'

/-- The idiom `x.providerId || "openai"` of src/main.ts: an absent or empty
provider id falls back to `"openai"`. -/
def providerIdOrOpenai : Option String → String
  | some s => if s = "" then "openai" else s
  | none => "openai"

/-- The truthiness test `if (currentProviderId)` of src/main.ts: defined and
non-empty. -/
def truthyString : Option String → Bool
  | some s => !s.isEmpty
  | none => false

/-- `migrateModelValue` from src/main.ts, instantiated at embedding models
(the generic `T extends { name; providerId? }` of the source).  A value
already containing a colon is returned unchanged; otherwise the available
models with a matching name decide which provider id to prepend. -/
def migrateModelValue (oldValue : String) (availableModels : List EmbeddingModel)
    (currentProviderId : Option String) : String :=
  if containsColon oldValue then oldValue
  else
    let matchingModels := availableModels.filter (fun m => m.name = oldValue)
    match matchingModels with
    | [] => formatModelValue "openai" oldValue
    | [m] => formatModelValue (providerIdOrOpenai m.providerId) oldValue
    | first :: _ :: _ =>
      if truthyString currentProviderId then
        match matchingModels.find? (fun m => m.providerId = currentProviderId) with
        | some preferred => formatModelValue (providerIdOrOpenai preferred.providerId) oldValue
        | none => formatModelValue (providerIdOrOpenai first.providerId) oldValue
      else formatModelValue (providerIdOrOpenai first.providerId) oldValue

/-! ## Plugin state from src/main.ts -/

/-- Modelled from the spec: the `StoredVector` record of
`src/vector_storage.ts`, whose source is not available; the fields follow the
persisted state layout given in the spec (identity, vector, modelName,
contentFingerprint). -/
structure StoredVector where
  identity : String
  vector : List ℚ
  modelName : String
  contentFingerprint : String
deriving Repr, DecidableEq

/-- The fields of `ZettelkastenLLMToolsPluginSettings` from src/main.ts that
the verified paths read or write. -/
structure PluginSettings where
  openaiAPIKey : String
  vectors : List StoredVector
  embeddingsModelVersion : Option String
  embeddingsModelProviderId : Option String
  embeddingsEnabled : Bool
  indexedNoteGroup : Nat
  customEmbeddingModels : List CustomEmbeddingModel
  providerModels : List (String × List EmbeddingModel)
deriving Repr, DecidableEq

/-- `IDLE_STATUS` / `INDEXING_STATUS` from src/main.ts. -/
inductive IndexingStatus
  | idle
  | indexing
deriving Repr, DecidableEq

/-- The mutable plugin state of `ZettelkastenLLMToolsPlugin` relevant to the
claims: the in-memory settings, the copy most recently persisted by
`saveData` (so that theorems can speak about the persisted settings), the
indexing status and the last indexed count. -/
structure PluginState where
  settings : PluginSettings
  savedSettings : PluginSettings
  indexingStatus : IndexingStatus
  lastIndexedCount : Nat
deriving Repr, DecidableEq

/-- `saveSettings` from src/main.ts: persists the current settings (the
client-cache refresh it also performs has no observable effect on the
verified state). -/
def saveSettings (s : PluginState) : PluginState :=
  { s with savedSettings := s.settings }

/-- `clearVectorArray` from src/main.ts: empties the vector array, recreates
the vector store over it, and resets the indexed count. -/
def clearVectorArray (s : PluginState) : PluginState :=
  { s with settings := { s.settings with vectors := [] }, lastIndexedCount := 0 }

/-- `indexVectorStores` from src/main.ts.  The body of the `try` block (note
group lookup, `generateAndStoreEmbeddings`, draining `done()` — code of
`src/semantic_search.ts`, not among the sources) is abstracted as `runBody`,
which returns the state it leaves behind together with an optional error; the
`catch` clause of the source swallows that error (it only logs), and the
`finally` clause resets the status to idle and persists.  The boolean result
records whether a run actually began (embedding work was submitted). -/
def indexVectorStores (runBody : PluginState → PluginState × Option String)
    (s : PluginState) : PluginState × Bool :=
  if s.settings.embeddingsEnabled = false ∨ s.indexingStatus = IndexingStatus.indexing then
    (s, false)
  else
    let s1 := saveSettings { s with indexingStatus := IndexingStatus.indexing,
                                    lastIndexedCount := 0 }
    let r := runBody s1
    let s3 := saveSettings { r.1 with indexingStatus := IndexingStatus.idle }
    (s3, true)

/-- The `getCurrentEmbeddingModelValue` helper of the settings tab in
src/main.ts: the configured embedding model value in the new
`providerId:modelName` format, migrating an old-format value on the fly. -/
def getCurrentEmbeddingModelValue (s : PluginState) : String :=
  let modelVersion := s.settings.embeddingsModelVersion.getD ""
  if modelVersion = "" then ""
  else if containsColon modelVersion then modelVersion
  else
    migrateModelValue modelVersion
      (availableEmbeddingModels s.settings.openaiAPIKey s.settings.customEmbeddingModels
        s.settings.providerModels)
      s.settings.embeddingsModelProviderId

/-- The confirmed branch of the embedding model dropdown `onChange` handler in
the settings tab of src/main.ts (the callback run when the user clicks
confirm in `EmbeddingsOverwriteConfirmModal`): for a non-empty value different
from the current one it records the new model and provider id, clears the
vector array, persists, and starts an indexing run. -/
def embeddingModelOnConfirm (runBody : PluginState → PluginState × Option String)
    (value : String) (s : PluginState) : PluginState × Bool :=
  let currentValue := getCurrentEmbeddingModelValue s
  if value ≠ "" ∧ value ≠ currentValue then
    let parsed := parseModelValue value
    let s1 := { s with settings := { s.settings with
                  embeddingsModelVersion := some value,
                  embeddingsModelProviderId := some parsed.providerId } }
    let s2 := saveSettings (clearVectorArray s1)
    indexVectorStores runBody s2
  else (s, false)

/-! ## Concurrency manager notifications, modelled from the spec -/

/-- Modelled from the spec: the terminal state of one embedding task inside a
run of `generateAndStoreEmbeddings` (`src/semantic_search.ts`, not among the
sources). -/
inductive TaskOutcome
  | success
  | failure
deriving Repr, DecidableEq

/-- Modelled from the spec: the completion loop of the concurrency manager of
`src/semantic_search.ts` — on each task completion (success or failure alike)
the cumulative completed counter is incremented and the notify callback is
invoked with it.  Given the counter so far and the remaining completion
events in completion order, this returns the sequence of counts delivered to
the callback. -/
def notifySequence : Nat → List TaskOutcome → List Nat
  | _, [] => []
  | completed, _outcome :: rest => (completed + 1) :: notifySequence (completed + 1) rest

/-- Modelled from the spec: the full sequence of progress notifications one
indexing run delivers, starting from a completed count of zero. -/
def indexRunNotifications (outcomes : List TaskOutcome) : List Nat :=
  notifySequence 0 outcomes

/-! ## Concrete sample data for witnesses -/

/-- A concrete remote embedding endpoint: every request answers with one raw
two-component vector. -/
def sampleApi : String → Option Nat → List String → List (List ℚ) :=
  fun _ _ _ => [[(1 : ℚ) / 2, (1 : ℚ) / 3]]

/-- The partial config `getOpenAIClient` passes when nothing beyond the model
is configured: no quantization precision, no base URL. -/
def samplePartialConfig : PartialOpenAIClientConfig :=
  { embeddings_model := none, quantization_decimals := none, baseURL := none }

/-- Like `samplePartialConfig` but with a custom base URL, to exhibit two
distinct clients sharing model, precision and endpoint behaviour. -/
def samplePartialConfigAlt : PartialOpenAIClientConfig :=
  { embeddings_model := none, quantization_decimals := none,
    baseURL := some "http://localhost:11434/v1/" }

/-- A concrete settings record with embeddings enabled. -/
def sampleSettings : PluginSettings :=
  { openaiAPIKey := "sk-test"
    vectors := [ { identity := "notes/a.md", vector := [1, 0],
                   modelName := OPENAI_EMBEDDING_3_SMALL, contentFingerprint := "100" } ]
    embeddingsModelVersion := none
    embeddingsModelProviderId := none
    embeddingsEnabled := true
    indexedNoteGroup := 0
    customEmbeddingModels := []
    providerModels := [] }

/-- A concrete plugin state at rest. -/
def sampleIdleState : PluginState :=
  { settings := sampleSettings, savedSettings := sampleSettings,
    indexingStatus := IndexingStatus.idle, lastIndexedCount := 1 }

/-- The same state while an indexing run is in flight. -/
def sampleIndexingState : PluginState :=
  { sampleIdleState with indexingStatus := IndexingStatus.indexing }

/-- A run body whose embedding work fails. -/
def sampleFailingRunBody : PluginState → PluginState × Option String :=
  fun t => (t, some "embedding call failed")

/-! ## Theorems -/

/-- Claim C3: a call to `generateEmbeddings` whose text argument is empty is
rejected with an error before any remote embedding request is issued (the
request counter is 0), and the rejection is returned to the caller of that
single call. -/
theorem generateEmbeddings_rejects_empty_text (modelName : String)
    (client : Option OpenAIClient) :
    generateEmbeddings "" modelName client =
      (Except.error "No text provided for embedding generation", 0) := by
  simp [generateEmbeddings]

/-- Claim C6: naming a built-in OpenAI embedding model with no configured
client fails immediately with a rejected call, issues no remote request (the
request counter is 0), and performs no retry. -/
theorem generateEmbeddings_no_client_rejected (text : String) (h : text ≠ "") :
    generateEmbeddings text OPENAI_EMBEDDING_3_SMALL none =
      (Except.error "OpenAI client not initialized", 0) ∧
    generateEmbeddings text OPENAI_EMBEDDING_3_LARGE none =
      (Except.error "OpenAI client not initialized", 0) := by
  constructor <;> simp [generateEmbeddings, h, OPENAI_EMBEDDING_3_SMALL,
    OPENAI_EMBEDDING_3_LARGE]

theorem generateEmbeddings_no_client_rejected_witness :
    generateEmbeddings "a" OPENAI_EMBEDDING_3_SMALL none =
      (Except.error "OpenAI client not initialized", 0) ∧
    generateEmbeddings "a" OPENAI_EMBEDDING_3_LARGE none =
      (Except.error "OpenAI client not initialized", 0) :=
  generateEmbeddings_no_client_rejected "a" (by decide)

/-- Claim C2: while the indexing status is already indexing, a call to
`indexVectorStores` is a no-op: it returns without submitting any embedding
work (the result flag is false and the outcome does not depend on the run
body) and leaves the whole state — stored vectors, indexing status, persisted
settings — unchanged, queuing nothing for later. -/
theorem indexVectorStores_coalesced_when_indexing
    (runBody : PluginState → PluginState × Option String) (s : PluginState)
    (h : s.indexingStatus = IndexingStatus.indexing) :
    indexVectorStores runBody s = (s, false) := by
  simp [indexVectorStores, h]

theorem indexVectorStores_coalesced_witness :
    indexVectorStores sampleFailingRunBody sampleIndexingState =
      (sampleIndexingState, false) :=
  indexVectorStores_coalesced_when_indexing sampleFailingRunBody sampleIndexingState rfl

/-- Claim C4: an invocation of `indexVectorStores` that actually begins a run
(embeddings enabled, status idle) terminates with the indexing status back at
idle, for every behaviour of the embedding work inside the run — including a
failing one, whose error is swallowed by the catch clause and never
propagates past the call (the function is total and returns a plain state,
not an error). -/
theorem indexVectorStores_run_ends_idle
    (runBody : PluginState → PluginState × Option String) (s : PluginState)
    (henabled : s.settings.embeddingsEnabled = true)
    (hidle : s.indexingStatus = IndexingStatus.idle) :
    ((indexVectorStores runBody s).1).indexingStatus = IndexingStatus.idle ∧
    (indexVectorStores runBody s).2 = true := by
  constructor <;> simp [indexVectorStores, henabled, hidle, saveSettings]

theorem indexVectorStores_run_ends_idle_witness :
    ((indexVectorStores sampleFailingRunBody sampleIdleState).1).indexingStatus =
      IndexingStatus.idle ∧
    (indexVectorStores sampleFailingRunBody sampleIdleState).2 = true :=
  indexVectorStores_run_ends_idle sampleFailingRunBody sampleIdleState rfl rfl

/-- Claim C5: when the user confirms a change of the active embedding model
to a different value, the handler hands the indexing run a state in which the
vector collection has been emptied and persisted (in-memory and saved vectors
are the empty list, indexed count 0), so no vector produced under the
previous model remains in the store when re-indexing starts. -/
theorem modelChange_clears_store_before_reindex
    (runBody : PluginState → PluginState × Option String) (value : String)
    (s : PluginState) (hvalue : value ≠ "")
    (hchanged : value ≠ getCurrentEmbeddingModelValue s) :
    ∃ s2 : PluginState,
      embeddingModelOnConfirm runBody value s = indexVectorStores runBody s2 ∧
      s2.settings.vectors = [] ∧ s2.savedSettings.vectors = [] ∧
      s2.lastIndexedCount = 0 := by
  refine ⟨saveSettings (clearVectorArray { s with settings := { s.settings with
      embeddingsModelVersion := some value,
      embeddingsModelProviderId := some (parseModelValue value).providerId } }),
    ?_, ?_, ?_, ?_⟩ <;>
  simp [embeddingModelOnConfirm, hvalue, hchanged, saveSettings, clearVectorArray]

theorem modelChange_clears_store_witness :
    ∃ s2 : ZKLLM.PluginState,
      embeddingModelOnConfirm sampleFailingRunBody
          (formatModelValue "openai" OPENAI_EMBEDDING_3_LARGE) sampleIdleState =
        indexVectorStores sampleFailingRunBody s2 ∧
      s2.settings.vectors = [] ∧ s2.savedSettings.vectors = [] ∧
      s2.lastIndexedCount = 0 :=
  modelChange_clears_store_before_reindex sampleFailingRunBody
    (formatModelValue "openai" OPENAI_EMBEDDING_3_LARGE) sampleIdleState
    (by decide) (by decide)

/-- Claim C10: for a model name other than the two built-ins,
`generateEmbeddings` with non-empty text rejects with an unknown-model error
without contacting any client (the request counter is 0) — and in particular
this holds for any model of that name reported available by
`availableEmbeddingModels`, custom and auto-discovered models included. -/
theorem generateEmbeddings_unknown_model_rejected (text modelName : String)
    (client : Option OpenAIClient) (htext : text ≠ "")
    (hsmall : modelName ≠ OPENAI_EMBEDDING_3_SMALL)
    (hlarge : modelName ≠ OPENAI_EMBEDDING_3_LARGE) :
    generateEmbeddings text modelName client =
      (Except.error ("Unknown embedding model: " ++ modelName), 0) ∧
    ∀ key customs pms, ∀ m ∈ availableEmbeddingModels key customs pms,
      m.available = true → m.name = modelName →
      generateEmbeddings text m.name client =
        (Except.error ("Unknown embedding model: " ++ modelName), 0) := by
  have hmain : generateEmbeddings text modelName client =
      (Except.error ("Unknown embedding model: " ++ modelName), 0) := by
    simp [generateEmbeddings, htext, hsmall, hlarge]
  exact ⟨hmain, fun key customs pms m _ _ hname => by rw [hname]; exact hmain⟩

theorem generateEmbeddings_unknown_model_witness :
    generateEmbeddings "a" "granite-embedding" none =
      (Except.error ("Unknown embedding model: " ++ "granite-embedding"), 0) ∧
    ∀ key customs pms, ∀ m ∈ availableEmbeddingModels key customs pms,
      m.available = true → m.name = "granite-embedding" →
      generateEmbeddings "a" m.name none =
        (Except.error ("Unknown embedding model: " ++ "granite-embedding"), 0) :=
  generateEmbeddings_unknown_model_rejected "a" "granite-embedding" none
    (by decide) (by decide) (by decide)

theorem splitAtFirstColon_of_not_mem (l : List Char) (h : ':' ∉ l) :
    splitAtFirstColon l = none := by
  induction l with
  | nil => rfl
  | cons c cs ih =>
    simp only [List.mem_cons, not_or] at h
    have hc : ¬ (c = ':') := fun hcc => h.1 hcc.symm
    simp [splitAtFirstColon, hc, ih h.2]

theorem splitAtFirstColon_append (pre post : List Char) (h : ':' ∉ pre) :
    splitAtFirstColon (pre ++ ':' :: post) = some (pre, post) := by
  induction pre with
  | nil => simp [splitAtFirstColon]
  | cons c cs ih =>
    simp only [List.mem_cons, not_or] at h
    have hc : ¬ (c = ':') := fun hcc => h.1 hcc.symm
    simp [splitAtFirstColon, hc, ih h.2]

theorem formatModelValue_data (providerId modelName : String) :
    (formatModelValue providerId modelName).data =
      providerId.data ++ ':' :: modelName.data := by
  simp [formatModelValue, String.data_append]

/-- Claim C8: for every provider id containing no colon and every model name,
`parseModelValue` inverts `formatModelValue` exactly; and every value with no
colon at all parses as provider `openai` with the whole input as model
name. -/
theorem parseModelValue_format_roundtrip :
    (∀ providerId modelName : String, ':' ∉ providerId.data →
      parseModelValue (formatModelValue providerId modelName) =
        { providerId := providerId, modelName := modelName }) ∧
    (∀ value : String, ':' ∉ value.data →
      parseModelValue value = { providerId := "openai", modelName := value }) := by
  constructor
  · intro providerId modelName h
    obtain ⟨a⟩ := providerId
    obtain ⟨b⟩ := modelName
    simp only [parseModelValue, formatModelValue_data]
    rw [splitAtFirstColon_append a b h]
  · intro value h
    simp only [parseModelValue]
    rw [splitAtFirstColon_of_not_mem value.data h]

theorem parseModelValue_format_roundtrip_witness :
    parseModelValue (formatModelValue "gcp" "text-embedding-004") =
      { providerId := "gcp", modelName := "text-embedding-004" } ∧
    parseModelValue "text-embedding-ada-002" =
      { providerId := "openai", modelName := "text-embedding-ada-002" } :=
  ⟨parseModelValue_format_roundtrip.1 "gcp" "text-embedding-004" (by decide),
   parseModelValue_format_roundtrip.2 "text-embedding-ada-002" (by decide)⟩

theorem containsColon_formatModelValue (providerId modelName : String) :
    containsColon (formatModelValue providerId modelName) = true := by
  simp [containsColon, formatModelValue_data]

/-- Claim C9: `migrateModelValue` always returns a value in the new
`providerId:modelName` format (it contains a colon separator), and it is
idempotent: migrating its own output again with the same arguments returns
that output unchanged. -/
theorem migrateModelValue_colon_and_idempotent :
    (∀ (oldValue : String) (models : List EmbeddingModel) (cpid : Option String),
      containsColon (migrateModelValue oldValue models cpid) = true) ∧
    (∀ (oldValue : String) (models : List EmbeddingModel) (cpid : Option String),
      migrateModelValue (migrateModelValue oldValue models cpid) models cpid =
        migrateModelValue oldValue models cpid) := by
  have hcolon : ∀ (v : String) (ms : List EmbeddingModel) (c : Option String),
      containsColon (migrateModelValue v ms c) = true := by
    intro v ms c
    by_cases h : containsColon v = true
    · rw [migrateModelValue, if_pos h]
      exact h
    · rw [migrateModelValue, if_neg h]
      simp only []
      repeat' split
      all_goals exact containsColon_formatModelValue _ _
  refine ⟨hcolon, ?_⟩
  intro v ms c
  rw [migrateModelValue, if_pos (hcolon v ms c)]

theorem notifySequence_closed (k : Nat) (l : List TaskOutcome) :
    notifySequence k l = (List.range l.length).map (fun i => k + 1 + i) := by
  induction l generalizing k with
  | nil => rfl
  | cons o rest ih =>
    have hfun : (fun i => k + 1 + (i + 1)) = (fun i => k + 1 + 1 + i) := by
      funext i; omega
    simp [notifySequence, ih (k + 1), List.range_succ_eq_map, List.map_map,
      Function.comp, hfun]
    intro a _
    omega

theorem notifySequence_chain (k : Nat) (l : List TaskOutcome) :
    List.Chain' (fun a b => a ≤ b) (notifySequence k l) := by
  induction l generalizing k with
  | nil => simp [notifySequence]
  | cons o rest ih =>
    cases rest with
    | nil => simp [notifySequence]
    | cons b rs =>
      have h2 := ih (k + 1)
      simp only [notifySequence] at h2 ⊢
      rw [List.chain'_cons]
      exact ⟨by omega, h2⟩

/-- Claim C7: within one indexing run the progress callback is invoked once
after each task completion (success and failure alike), carrying the
cumulative count of completed tasks — so the delivered sequence for `n`
completions is `1, 2, ..., n` — and that sequence is monotonically
non-decreasing. -/
theorem indexRunNotifications_cumulative_monotone (outcomes : List TaskOutcome) :
    indexRunNotifications outcomes = (List.range outcomes.length).map (fun i => i + 1) ∧
    List.Chain' (fun a b => a ≤ b) (indexRunNotifications outcomes) ∧
    (indexRunNotifications outcomes).length = outcomes.length := by
  refine ⟨?_, notifySequence_chain 0 outcomes, ?_⟩
  · rw [indexRunNotifications, notifySequence_closed]
    have hfun : (fun i => 0 + 1 + i) = (fun i : Nat => i + 1) := by
      funext i; omega
    rw [hfun]
  · rw [indexRunNotifications, notifySequence_closed]
    simp

/-- Claim C1: a stored embedding result is the raw embedding returned by the
endpoint mapped componentwise through the write-time rounding rule, at 3
decimal places when no precision is configured; and any client sharing the
same model, the same precision and the same endpoint behaviour (in
particular, embedding the same text again) produces a bit-identical stored
vector. -/
theorem generateOpenAiEmbeddings_quantized
    (api : String → Option Nat → List String → List (List ℚ))
    (p : PartialOpenAIClientConfig) (docs : List String) (raw : List ℚ)
    (c2 : OpenAIClient)
    (hp : p.quantization_decimals = none)
    (hraw : (api (OpenAIClient.create api p).config.embeddings_model
        (embeddingDimensions (OpenAIClient.create api p).config.embeddings_model)
        docs).head? = some raw)
    (hapi : c2.embedApi = api)
    (hmodel : c2.config.embeddings_model = (OpenAIClient.create api p).config.embeddings_model)
    (hdec : c2.config.quantization_decimals = 3) :
    (OpenAIClient.create api p).generateOpenAiEmbeddings docs =
      some (raw.map (quantizeComponent 3)) ∧
    c2.generateOpenAiEmbeddings docs =
      (OpenAIClient.create api p).generateOpenAiEmbeddings docs := by
  have hd : (OpenAIClient.create api p).config.quantization_decimals = 3 := by
    simp [OpenAIClient.create, mergeConfig, hp, defaultOpenAIConfig, quantizationDecimals]
  have hca : (OpenAIClient.create api p).embedApi = api := rfl
  constructor
  · rw [OpenAIClient.generateOpenAiEmbeddings]
    simp only [hca, List.head?_map, hraw, hd, Option.map_some]
    rfl
  · rw [OpenAIClient.generateOpenAiEmbeddings, OpenAIClient.generateOpenAiEmbeddings]
    simp only [hca, hapi, hmodel, hdec, hd]

theorem generateOpenAiEmbeddings_quantized_witness :
    (OpenAIClient.create sampleApi samplePartialConfig).generateOpenAiEmbeddings
        ["hello"] =
      some ([(1 : ℚ) / 2, (1 : ℚ) / 3].map (quantizeComponent 3)) ∧
    (OpenAIClient.create sampleApi samplePartialConfigAlt).generateOpenAiEmbeddings
        ["hello"] =
      (OpenAIClient.create sampleApi samplePartialConfig).generateOpenAiEmbeddings
        ["hello"] :=
  generateOpenAiEmbeddings_quantized sampleApi samplePartialConfig ["hello"]
    [(1 : ℚ) / 2, (1 : ℚ) / 3]
    (OpenAIClient.create sampleApi samplePartialConfigAlt) rfl rfl rfl rfl rfl

end ZKLLM
